import Mathlib

/-!
Shallow embedding of the databayes repository (edgemind-sas/databayes):
`databayes/core.py` (polymorphic object construction) and
`databayes/db/db_influx.py` / `databayes/db/db_mysql.py` (backend adapters).

Python values that appear in records are modelled by `PyVal`: the primitive
classification mirrors `isinstance(value, (str, int, float))`; every
non-primitive value is opaque and carries the string that Python's `str()`
would render for it.  Backend calls that can raise are modelled by boolean
oracles (`writeOk`, `raises`, ...) passed as arguments, and functions that can
propagate an exception return `Except String`.
-/

namespace Databayes

/-- A Python runtime value as it appears in a record handed to the adapter.
`float` and `other` carry only their textual rendering (`str(x)`). -/
inductive PyVal where
  | str (s : String)
  | int (n : Int)
  | float (r : String)
  | other (r : String)
  deriving DecidableEq, Repr

/-- The check `isinstance(value, (str, int, float))` from `db_influx.py` lines 147 and 155. -/
def PyVal.isPrimitive : PyVal → Bool
  | .str _ => true
  | .int _ => true
  | .float _ => true
  | .other _ => false

/-- Python's `str(value)` restricted to the values of `PyVal`. -/
def PyVal.pyStr : PyVal → String
  | .str s => s
  | .int n => toString n
  | .float r => r
  | .other r => r

/-- A record (`item` in `put`): a Python dict, keys unique, insertion order kept. -/
abbrev Item := List (String × PyVal)

/-- First value bound to `k`, i.e. Python `item[k]` / `k in item`. -/
def lookupKey (item : Item) (k : String) : Option PyVal :=
  match item with
  | [] => none
  | (k', v) :: rest => if k' = k then some v else lookupKey rest k

/-- Python truthiness of an `Optional[str]` (`None` and `""` are falsy);
used for `if self.name:` and `if measurement:`. -/
def pyTruthy : Option String → Bool
  | none => false
  | some s => s ≠ ""

/-- Python's `endpoint.split("/")` for the single-character separator `/`:
split the character list on `'/'` (`"".split("/")` is `[""]`, separators at
the ends produce empty segments). -/
def pySplitSlash (s : String) : List String :=
  (s.data.splitOn '/').map fun l => String.mk l

/-- Embeds `DBInfluxDB._resolve_bucket_measurement` (db_influx.py lines 78-95):
if `self.name` is truthy the bucket is the name and the measurement is the
endpoint; otherwise the endpoint is split on `/`, the bucket is `parts[0]` and
the measurement `parts[1]` when the split has more than one part, else `None`. -/
def resolve_bucket_measurement (name : Option String) (endpoint : String) :
    String × Option String :=
  if pyTruthy name then
    (name.getD "", some endpoint)
  else
    let parts := pySplitSlash endpoint
    (parts.headD "", if parts.length > 1 then some (parts.getD 1 "") else none)

/-- One iteration of the tag loop in `put` (db_influx.py lines 144-149):
`if idx in item and idx != time_field`, read the value, and when the value is
not primitive rebind the loop variable `idx` to `str(value)`; the tag attached
is `(idx, value)` with `value` left as read. -/
def tagOf (item : Item) (time_field idx : String) : Option (String × PyVal) :=
  match lookupKey item idx with
  | none => none
  | some value =>
    if idx ≠ time_field then
      some ((if value.isPrimitive then idx else value.pyStr), value)
    else
      none

/-- All tags attached to a point for `item`, in index-list order. -/
def putTags (item : Item) (index : List String) (time_field : String) :
    List (String × PyVal) :=
  index.filterMap (tagOf item time_field)

/-- The field loop in `put` (db_influx.py lines 153-157): every key not in
`index`, not `"measurement"` and not the time field becomes a field,
non-primitive values stringified. -/
def putFields (item : Item) (index : List String) (time_field : String) :
    List (String × PyVal) :=
  item.filterMap fun kv =>
    if kv.1 ∉ index ∧ kv.1 ≠ "measurement" ∧ kv.1 ≠ time_field then
      some (kv.1, if kv.2.isPrimitive then kv.2 else .str kv.2.pyStr)
    else
      none

/-- An InfluxDB `Point` as built by `put`. -/
structure Point where
  measurement : Option PyVal
  time : Option PyVal
  tags : List (String × PyVal)
  fields : List (String × PyVal)
  deriving DecidableEq, Repr

/-- Point construction for one record (db_influx.py lines 130-159):
`item.get("measurement", measurement)` chooses the measurement, the timestamp
is attached when the time field is present, then tags and fields. -/
def buildPoint (measurement : Option String) (index : List String)
    (time_field : String) (item : Item) : Point :=
  { measurement :=
      match lookupKey item "measurement" with
      | some v => some v
      | none => measurement.map .str
    time := lookupKey item time_field
    tags := putTags item index time_field
    fields := putFields item index time_field }

/-- Outcome dictionary returned by `put`. -/
structure PutOutcome where
  success_count : Nat
  failure_count : Nat
  deriving DecidableEq, Repr

/-- Embeds the point-construction and batch-write portion of `DBInfluxDB.put`
(db_influx.py lines 128-171).  All points are built, then written in one batch
inside `try`; `writeOk` is the oracle for whether the batch write raises.
Success returns `(len(data), 0)`, any exception during the write returns
`(0, len(data))`.  The bucket-ensure step at line 126, which runs *outside*
the `try` and can propagate backend errors, is composed in `put_full`. -/
def put (name : Option String) (endpoint : String) (data : List Item)
    (index : List String) (time_field : String) (writeOk : Bool) :
    PutOutcome × List Point :=
  let bm := resolve_bucket_measurement name endpoint
  let points := data.map (buildPoint bm.2 index time_field)
  if writeOk then
    ({ success_count := data.length, failure_count := 0 }, points)
  else
    ({ success_count := 0, failure_count := data.length }, points)

/-- Embeds `DBInfluxDB._ensure_bucket_exists` (db_influx.py lines 97-109):
the bucket is looked up and created when absent.  Neither backend call sits
in a `try`, so an error from either (oracles `findRaises`, `createRaises`)
propagates to the caller. -/
def ensure_bucket_exists (bucketFound findRaises createRaises : Bool) :
    Except String Unit :=
  if findRaises then .error "find_bucket_by_name failed"
  else if bucketFound then .ok ()
  else if createRaises then .error "create_bucket failed"
  else .ok ()

/-- Embeds `DBInfluxDB.put` in full (db_influx.py lines 111-171): the
bucket-ensure call at line 126 runs outside the `try`, so a backend error
there propagates out of `put`; otherwise the batch write runs and its outcome
is reported as in `put`. -/
def put_full (name : Option String) (endpoint : String) (data : List Item)
    (index : List String) (time_field : String)
    (bucketFound findRaises createRaises writeOk : Bool) :
    Except String (PutOutcome × List Point) :=
  match ensure_bucket_exists bucketFound findRaises createRaises with
  | .error e => .error e
  | .ok _ => .ok (put name endpoint data index time_field writeOk)

/-- The Flux query synthesized by `DBInfluxDB.get` (db_influx.py lines
205-220), built by the same sequence of conditional appends as the source:
range, then measurement filter when the measurement is truthy, then the
AND-joined filter conditions when the filter dict is non-empty, then the
OR-joined projection field filter when the projection is non-empty, then the
limit clause when `limit > 0`. -/
def buildQuery (bucket : String) (measurement : Option String)
    (filter : List (String × PyVal)) (projection : List String)
    (limit : Int) : String :=
  let query := "from(bucket: \"" ++ bucket ++ "\") |> range(start: 0)"
  let query :=
    if pyTruthy measurement then
      query ++ " |> filter(fn: (r) => r._measurement == \"" ++
        measurement.getD "" ++ "\")"
    else query
  let filter_conditions :=
    filter.map fun kv => "r[\"" ++ kv.1 ++ "\"] == \"" ++ kv.2.pyStr ++ "\""
  let query :=
    if filter_conditions ≠ [] then
      query ++ " |> filter(fn: (r) => " ++
        String.intercalate " and " filter_conditions ++ ")"
    else query
  let query :=
    if projection ≠ [] then
      query ++ " |> filter(fn: (r) => " ++
        String.intercalate " or "
          (projection.map fun field => "r._field == \"" ++ field ++ "\"") ++ ")"
    else query
  let query := if limit > 0 then query ++ " |> limit(n: " ++ toString limit ++ ")"
    else query
  query

/-- Python's `s.startswith(p)` over the characters of the strings. -/
def pyStartsWith (s p : String) : Bool :=
  p.data.isPrefixOf s.data

/-- Python's `s.endswith(p)` over the characters of the strings. -/
def pyEndsWith (s p : String) : Bool :=
  p.data.isSuffixOf s.data

/-- Embeds `try_convert_to_dict` (db_influx.py lines 17-26): a string that starts with
`\x7b` and ends with `\x7d` is handed to `ast.literal_eval` — modelled by the
oracle `literal_eval`, `none` standing for a `ValueError`/`SyntaxError` — and
on failure the original string comes back; every other value passes through. -/
def try_convert_to_dict (literal_eval : String → Option PyVal) (x : PyVal) :
    PyVal :=
  match x with
  | .str s =>
    if pyStartsWith s "\x7b" && pyEndsWith s "\x7d" then
      match literal_eval s with
      | some v => v
      | none => .str s
    else .str s
  | v => v

/-- What a `connect` call evaluates to: the adapter instance itself
(`return self`) or a plain boolean flag. -/
inductive ConnectResult where
  | adapter
  | flag (b : Bool)
  deriving DecidableEq, Repr

/-- Embeds `DBInfluxDB.connect` (db_influx.py lines 58-76): the ping is attempted
inside `try`, success or failure is only logged, and `self` is returned on
both paths. -/
def DBInfluxDB_connect (pingOk : Bool) : ConnectResult × String :=
  let log := if pingOk then "InfluxDB connected successfully"
    else "Failed to connect to InfluxDB"
  (.adapter, log)

/-- Embeds `DBMySQL.connect` (db_mysql.py lines 17-38): the connection attempt is
inside `try`; success returns `True`, a caught `Error` returns `False`. -/
def DBMySQL_connect (connOk : Bool) : ConnectResult × String :=
  if connOk then (.flag true, "Connection to MySQL DB successful")
  else (.flag false, "Error connecting to MySQL DB")

/-- Embeds `DBInfluxDB.update` (db_influx.py lines 278-321): a `put` of the
single record `[data]`, with no `try` around it, so an error propagating out
of `put` (from the un-caught bucket-ensure step) reaches update's caller;
otherwise `False` when the outcome has `failure_count > 0`, else `True`. -/
def DBInfluxDB_update (name : Option String) (endpoint : String) (data : Item)
    (index : List String) (time_field : String)
    (bucketFound findRaises createRaises writeOk : Bool) :
    Except String Bool :=
  match put_full name endpoint [data] index time_field bucketFound findRaises
      createRaises writeOk with
  | .error e => .error e
  | .ok result => if result.1.failure_count > 0 then .ok false else .ok true

/-- Rendering of `f-string` interpolation of an `Optional[str]`
(`None` prints as `"None"`). -/
def renderOptStr : Option String → String
  | none => "None"
  | some s => s

/-- The deletion predicate of `DBInfluxDB.delete` (db_influx.py lines
394-396): measurement equality, then ` AND key="value"` for every tag. -/
def delete_predicate (measurement : Option String)
    (tags : List (String × PyVal)) : String :=
  tags.foldl
    (fun acc kv => acc ++ " AND " ++ kv.1 ++ "=\"" ++ kv.2.pyStr ++ "\"")
    ("_measurement=\"" ++ renderOptStr measurement ++ "\"")

/-- Embeds `DBInfluxDB.delete` (db_influx.py lines 379-416): the predicate is built,
then the backend call runs inside `try`; `raises` is the oracle for an
exception, which is caught and logged and yields `False`; success yields
`True`.  The return type `Bool` records that nothing propagates. -/
def DBInfluxDB_delete (name : Option String) (endpoint : String)
    (tags : List (String × PyVal)) (raises : Bool) : Bool × String :=
  let bm := resolve_bucket_measurement name endpoint
  let predicate := delete_predicate bm.2 tags
  (if raises then false else true, predicate)

/-- Embeds `DBInfluxDB.reset` (db_influx.py lines 323-346): resolve the bucket (from
`self.name` when no endpoint is given), and when the bucket exists delete it
inside `try` — but the handler ends in `raise e`, so a failing backend delete
propagates as `.error`.  Recreation is commented out in the source. -/
def DBInfluxDB_reset (name : Option String) (endpoint : Option String)
    (bucketExists : Bool) (deleteRaises : Bool) : Except String Unit :=
  let _bucket :=
    match endpoint with
    | none => renderOptStr name
    | some ep => (resolve_bucket_measurement name ep).1
  if bucketExists then
    if deleteRaises then .error "Failed to delete bucket" else .ok ()
  else .ok ()

/-- Columns of `pd.DataFrame(data)` for a list of record dicts: the union of
the keys, in order of first appearance. -/
def dfColumns (data : List Item) : List String :=
  data.foldl
    (fun cols item =>
      item.foldl (fun cols kv => if kv.1 ∈ cols then cols else cols ++ [kv.1])
        cols)
    []

/-- The reserved column names of `DBInfluxDB.get` (db_influx.py lines
237-246); every other column is a tag column. -/
def not_tag_fields : List String :=
  ["result", "table", "_start", "_stop", "_time", "_value", "_field",
   "_measurement"]

/-- First-appearance-order deduplication. -/
def uniqueKeys (l : List (List (Option PyVal))) : List (List (Option PyVal)) :=
  l.foldl (fun acc x => if x ∈ acc then acc else acc ++ [x]) []

/-- Models `pandas.DataFrame.pivot` as called in `get` (db_influx.py lines 250-252)
with `index = tag_fields + ["_time"]`, `columns = "_field"`,
`values = "_value"`: it raises a `KeyError` when any referenced column label
is absent from the frame (in particular on an empty frame, which has no
columns at all), raises a `ValueError` when some (index tuple, field) pair is
duplicated, and otherwise yields one wide row per distinct index tuple with
one column per field name. -/
def pivot (data : List Item) (tagFields : List String) :
    Except String (List Item) :=
  let cols := dfColumns data
  let needed := tagFields ++ ["_time", "_field", "_value"]
  if needed.all fun c => cols.contains c then
    let idxKeys := tagFields ++ ["_time"]
    let keyOf := fun it => idxKeys.map (lookupKey it)
    let cells := data.map fun it => (keyOf it, lookupKey it "_field")
    if cells.Nodup then
      let tuples := uniqueKeys (data.map keyOf)
      .ok <| tuples.map fun t =>
        let members := data.filter fun it => keyOf it = t
        let idxCols : Item :=
          (idxKeys.zip t).filterMap fun p => p.2.map fun v => (p.1, v)
        let fieldCols : Item := members.filterMap fun it =>
          match lookupKey it "_field", lookupKey it "_value" with
          | some f, some v => some (f.pyStr, v)
          | _, _ => none
        idxCols ++ fieldCols
    else .error "ValueError: Index contains duplicate entries"
  else .error "KeyError"

/-- Embeds `DBInfluxDB.get` (db_influx.py lines 173-271): resolve bucket and
measurement, synthesize the query, flatten the backend's tables of narrow
records into `data`, classify tag columns, pivot long to wide (outside any
`try`, so a pivot failure propagates), pass every cell through
`try_convert_to_dict`, and rename `_time` to the requested time field.  The
result pairs the query string with the wide rows. -/
def get (name : Option String) (endpoint : String)
    (filter : List (String × PyVal)) (projection : List String) (limit : Int)
    (time_field : String) (literal_eval : String → Option PyVal)
    (tables : List (List Item)) : Except String (String × List Item) :=
  let bm := resolve_bucket_measurement name endpoint
  let query := buildQuery bm.1 bm.2 filter projection limit
  let data := tables.flatten
  let tagFields := (dfColumns data).filter fun c => c ∉ not_tag_fields
  match pivot data tagFields with
  | .error e => .error e
  | .ok wide =>
    let wide := wide.map <| List.map fun kv =>
      (kv.1, try_convert_to_dict literal_eval kv.2)
    let wide :=
      if time_field ≠ "_time" then
        wide.map <| List.map fun kv =>
          ((if kv.1 = "_time" then time_field else kv.1), kv.2)
      else wide
    .ok (query, wide)

/-! ### core.py: polymorphic object construction (`ObjCore`) -/

/-- A Python object as handled by `ObjCore.from_dict`: scalars, plain dicts
and lists (keys in insertion order), and constructed typed objects
(`pydantic` model instances); `pfloat`/`pother` carry their `str()`
rendering. -/
inductive PyObj where
  | pstr (s : String)
  | pint (n : Int)
  | pfloat (r : String)
  | pother (r : String)
  | pdict (entries : List (String × PyObj))
  | plist (elems : List PyObj)
  | ptyped (cls : String) (fields : List (String × PyObj))

/-- The `str()` rendering used in the `ValueError` message of `from_dict`
when the discriminator is not a string scalar; the structured cases never
occur as discriminators and get a placeholder. -/
def PyObj.clsRender : PyObj → String
  | .pstr s => s
  | .pint n => toString n
  | .pfloat r => r
  | .pother r => r
  | _ => "<object>"

/-- First value bound to `k` in an entry list (Python `d[k]`). -/
def lookupEntry (entries : List (String × PyObj)) (k : String) : Option PyObj :=
  match entries with
  | [] => none
  | (k', v) :: rest => if k' = k then some v else lookupEntry rest k

/-- Python `d.pop(k)`: the entry list with the first binding of `k` removed. -/
def popEntry (entries : List (String × PyObj)) (k : String) :
    List (String × PyObj) :=
  match entries with
  | [] => []
  | (k', v) :: rest => if k' = k then rest else (k', v) :: popEntry rest k

mutual

/-- Embeds `ObjCore.from_dict` (core.py lines 50-76), parameterized by `table`: the
names in the `cls_sub_dict` built from the root class's recursive subclass
scan.  A dict is deep-copied and every value of the copy rebuilt recursively
(an error anywhere propagates); if the rebuilt copy carries a `"cls"` key that
key is popped, a non-registered (or non-string) discriminator raises the
`ValueError` of lines 66-68 (modelled as `.error`), and a registered name
constructs the typed object from the remaining rebuilt entries.  A dict
*without* a `"cls"` key falls through to `return obj` (line 76), which
returns the *original* dict — the rebuilt deep copy is discarded.  Lists are
rebuilt element-wise in place, so the rebuilt list is returned; everything
else passes through. -/
def from_dict (table : List String) : PyObj → Except String PyObj
  | .pdict entries =>
    match fromDictEntries table entries with
    | .error e => .error e
    | .ok entries' =>
      match lookupEntry entries' "cls" with
      | some clsVal =>
        match clsVal with
        | .pstr clsname =>
          if table.contains clsname then
            .ok (.ptyped clsname (popEntry entries' "cls"))
          else .error (clsname ++ " is not a subclass of the root class")
        | v => .error (v.clsRender ++ " is not a subclass of the root class")
      | none => .ok (.pdict entries)
  | .plist elems =>
    match fromDictList table elems with
    | .error e => .error e
    | .ok elems' => .ok (.plist elems')
  | x => .ok x

/-- Value-wise rebuild of a dict's entries (`for key, value in
obj_copy.items(): obj_copy[key] = basecls.from_dict(value)`). -/
def fromDictEntries (table : List String) :
    List (String × PyObj) → Except String (List (String × PyObj))
  | [] => .ok []
  | (k, v) :: rest =>
    match from_dict table v with
    | .error e => .error e
    | .ok v' =>
      match fromDictEntries table rest with
      | .error e => .error e
      | .ok rest' => .ok ((k, v') :: rest')

/-- Element-wise rebuild of a list (`for index, value in enumerate(obj)`). -/
def fromDictList (table : List String) :
    List PyObj → Except String (List PyObj)
  | [] => .ok []
  | v :: rest =>
    match from_dict table v with
    | .error e => .error e
    | .ok v' =>
      match fromDictList table rest with
      | .error e => .error e
      | .ok rest' => .ok (v' :: rest')

end

mutual

/-- Embeds `ObjCore.dict` (core.py lines 83-84): serialization of a typed object to
the mapping `dict({"cls": classname}, **fields)` — the discriminator entry
followed by the field values, nested values serialized the same way. -/
def to_document : PyObj → PyObj
  | .ptyped c fields => .pdict (("cls", .pstr c) :: toDocumentEntries fields)
  | .pdict entries => .pdict (toDocumentEntries entries)
  | .plist elems => .plist (toDocumentList elems)
  | x => x

/-- Entry-wise serialization of field/dict values. -/
def toDocumentEntries : List (String × PyObj) → List (String × PyObj)
  | [] => []
  | (k, v) :: rest => (k, to_document v) :: toDocumentEntries rest

/-- Element-wise serialization of list elements. -/
def toDocumentList : List PyObj → List PyObj
  | [] => []
  | v :: rest => to_document v :: toDocumentList rest

end

mutual

/-- Well-formedness of an object with respect to the subtype table: every
typed node's class name is registered, and no dict entry or field is named
`"cls"` (the discriminator key is reserved for serialization). -/
def wf (table : List String) : PyObj → Bool
  | .pdict entries => wfEntries table entries
  | .plist elems => wfList table elems
  | .ptyped c fields => table.contains c && wfEntries table fields
  | _ => true

/-- Entry lists: no `"cls"` key, values well-formed. -/
def wfEntries (table : List String) : List (String × PyObj) → Bool
  | [] => true
  | (k, v) :: rest => k ≠ "cls" && wf table v && wfEntries table rest

/-- Lists: elements well-formed. -/
def wfList (table : List String) : List PyObj → Bool
  | [] => true
  | v :: rest => wf table v && wfList table rest

end


mutual

/-- A value containing no typed object anywhere: `to_document` leaves such a
value unchanged and `from_dict` rebuilds it to itself. -/
def untypedObj : PyObj → Bool
  | .pdict entries => untypedEntries entries
  | .plist elems => untypedList elems
  | .ptyped _ _ => false
  | _ => true

/-- Entry lists all of whose values contain no typed object. -/
def untypedEntries : List (String × PyObj) → Bool
  | [] => true
  | (_, v) :: rest => untypedObj v && untypedEntries rest

/-- Lists all of whose elements contain no typed object. -/
def untypedList : List PyObj → Bool
  | [] => true
  | v :: rest => untypedObj v && untypedList rest

end

mutual

/-- Round-trip-safe shapes: typed objects and lists may contain further typed
objects in their fields and elements, but a plain dict's values must contain
no typed object at all — `from_dict` hands a discriminator-less dict back
unchanged (`return obj`, core.py line 76), so a typed object serialized below
a plain dict would stay an unconverted discriminator mapping. -/
def rebuildable : PyObj → Bool
  | .pdict entries => untypedEntries entries
  | .plist elems => rebuildableList elems
  | .ptyped _ fields => rebuildableEntries fields
  | _ => true

/-- Entry lists all of whose values are round-trip safe. -/
def rebuildableEntries : List (String × PyObj) → Bool
  | [] => true
  | (_, v) :: rest => rebuildable v && rebuildableEntries rest

/-- Lists all of whose elements are round-trip safe. -/
def rebuildableList : List PyObj → Bool
  | [] => true
  | v :: rest => rebuildable v && rebuildableList rest

end

end Databayes

/-! ## Theorems for the spec claims -/

namespace Databayes

/-- C1 (counterexample): in `put`'s tag loop, for the record
`{"a": [1, 2], "_time": 0}` with `index = ["a"]`, the attached tag is
`("[1, 2]", [1, 2])` — the stringified *value* becomes the tag key — and no
tag keyed by the key name `"a"` is attached, contradicting the claim that the
key is attached as a tag with (only) the key name stringified. -/
theorem C1_counterexample :
    putTags [("a", PyVal.other "[1, 2]"), ("_time", PyVal.int 0)] ["a"] "_time" =
      [("[1, 2]", PyVal.other "[1, 2]")] ∧
    (("a" : String), PyVal.other "[1, 2]") ∉
      putTags [("a", PyVal.other "[1, 2]"), ("_time", PyVal.int 0)] ["a"] "_time" :=
  ⟨rfl, by decide⟩

/-- C1 (amended): for every key listed in `index` that is present in the
record and differs from the time field, a tag is attached; its key is the key
name when the value is primitive, and otherwise the *stringified value*
replaces the key name as the tag key, while the value itself is attached
un-stringified as the tag value. -/
theorem C1_index_tag_attachment (item : Item) (index : List String)
    (time_field idx : String) (value : PyVal)
    (h1 : idx ∈ index) (h2 : lookupKey item idx = some value)
    (h3 : idx ≠ time_field) :
    ((if value.isPrimitive then idx else value.pyStr), value) ∈
      putTags item index time_field := by
  refine List.mem_filterMap.mpr ⟨idx, h1, ?_⟩
  simp [tagOf, h2, h3]

/-- C1 witness: the amended statement at the concrete record
`{"a": [1, 2]}`, `index = ["a"]`. -/
theorem C1_index_tag_attachment_witness :
    (("[1, 2]" : String), PyVal.other "[1, 2]") ∈
      putTags [("a", PyVal.other "[1, 2]")] ["a"] "_time" := by
  have h := C1_index_tag_attachment [("a", PyVal.other "[1, 2]")] ["a"] "_time"
    "a" (PyVal.other "[1, 2]") (by decide) (by rfl) (by decide)
  simpa using h

/-- C2: `put` reports whole-batch outcomes only — `(N, 0)` when the batch
write succeeds and `(0, N)` when it raises, and in every case one of the two
counts is zero, so no partial count is ever reported. -/
theorem C2_put_whole_batch_outcome (name : Option String) (endpoint : String)
    (data : List Item) (index : List String) (time_field : String)
    (writeOk : Bool) :
    (put name endpoint data index time_field writeOk).1 =
      (if writeOk then { success_count := data.length, failure_count := 0 }
       else { success_count := 0, failure_count := data.length }) ∧
    ((put name endpoint data index time_field writeOk).1.success_count = 0 ∨
     (put name endpoint data index time_field writeOk).1.failure_count = 0) := by
  cases writeOk <;> simp [put]

/-- C7 (counterexample): a backend failure while `reset` deletes an existing
bucket is re-raised to the caller (`raise e` in db_influx.py line 346), so
`reset` propagates the exception instead of converting it to a status
value. -/
theorem C7_counterexample :
    DBInfluxDB_reset none (some "b") true true =
      Except.error "Failed to delete bucket" ∧
    DBInfluxDB_reset none (some "b") true true ≠ Except.ok () :=
  ⟨rfl, by simp [DBInfluxDB_reset]⟩

/-- C7 (amended): backend errors during `delete` are caught and converted to
the boolean `false` (success gives `true`) and never propagate.  For
`update`, an exception during the batch write is converted to `false`, but a
backend error raised by `put`'s bucket-ensure step — which runs outside
`put`'s `try` — propagates uncaught to update's caller.  `reset` logs a
failing bucket deletion and then re-raises it, so that error also propagates
to the caller. -/
theorem C7_update_delete_swallow_reset_raises (name : Option String)
    (endpoint : String) (data : Item) (index : List String)
    (time_field : String) (tags : List (String × PyVal)) (ep : Option String)
    (bucketFound findRaises createRaises writeOk raises bucketExists
      deleteRaises : Bool) :
    (DBInfluxDB_delete name endpoint tags raises).1 = !raises ∧
    DBInfluxDB_update name endpoint data index time_field bucketFound
        findRaises createRaises writeOk =
      (if findRaises then Except.error "find_bucket_by_name failed"
       else if !bucketFound && createRaises then
        Except.error "create_bucket failed"
       else Except.ok writeOk) ∧
    DBInfluxDB_reset name ep bucketExists deleteRaises =
      (if bucketExists && deleteRaises then
        Except.error "Failed to delete bucket"
      else Except.ok ()) := by
  refine ⟨?_, ?_, ?_⟩
  · cases raises <;> simp [DBInfluxDB_delete]
  · cases findRaises <;> cases bucketFound <;> cases createRaises <;>
      cases writeOk <;>
      simp [DBInfluxDB_update, put_full, ensure_bucket_exists, put]
  · cases bucketExists <;> cases deleteRaises <;> simp [DBInfluxDB_reset]

/-- Rebuilding a string from its characters is the identity. -/
theorem string_mk_data : ∀ s : String, String.mk s.data = s
  | ⟨_⟩ => rfl

/-- A slash-free string splits into the single segment `[a]`. -/
theorem pySplitSlash_single (a : String) (ha : '/' ∉ a.data) :
    pySplitSlash a = [a] := by
  simp only [pySplitSlash, List.splitOn]
  rw [List.splitOnP_eq_single _ _
    (fun x hx => by simp only [beq_iff_eq]; exact fun h => ha (h ▸ hx))]
  simp [string_mk_data]

/-- Splitting `a ++ "/" ++ rest` with `a` slash-free peels off `a` as the
first segment. -/
theorem pySplitSlash_sep (a rest : String) (ha : '/' ∉ a.data) :
    pySplitSlash (a ++ "/" ++ rest) = a :: pySplitSlash rest := by
  have hdata : (a ++ "/" ++ rest).data = a.data ++ '/' :: rest.data := by
    simp [String.data_append]
  simp only [pySplitSlash, List.splitOn, hdata]
  rw [List.splitOnP_first _ _
    (fun x hx => by simp only [beq_iff_eq]; exact fun h => ha (h ▸ hx))
    '/' (by simp) rest.data]
  simp [string_mk_data]

/-- C3 (counterexample): with no explicit adapter name, the endpoint
`"a/b/c"` resolves to measurement `"b"` — the segment between the first and
second `/` — not to `"b/c"`, the substring after the first `/` that the claim
predicts. -/
theorem C3_counterexample :
    resolve_bucket_measurement none "a/b/c" = ("a", some "b") ∧
    (("a", some "b") : String × Option String) ≠ ("a", some "b/c") :=
  ⟨rfl, by decide⟩

/-- C3 (amended): with an explicit non-empty adapter name, resolution yields
`(name, endpoint)` regardless of slashes; otherwise the bucket is the
substring before the first `/` and the measurement is the *second split
segment* — the substring between the first and second `/` (the entire
remainder only when there is no second `/`) — measurement absent when the
endpoint contains no `/`. -/
theorem C3_endpoint_resolution (n endpoint a b : String) (hn : n ≠ "")
    (ha : '/' ∉ a.data) (hb : '/' ∉ b.data) :
    resolve_bucket_measurement (some n) endpoint = (n, some endpoint) ∧
    resolve_bucket_measurement none a = (a, none) ∧
    resolve_bucket_measurement none (a ++ "/" ++ b) = (a, some b) ∧
    (∀ rest : String,
      resolve_bucket_measurement none (a ++ "/" ++ (b ++ "/" ++ rest)) =
        (a, some b)) := by
  refine ⟨?_, ?_, ?_, fun rest => ?_⟩
  · simp [resolve_bucket_measurement, pyTruthy, hn]
  · simp [resolve_bucket_measurement, pyTruthy, pySplitSlash_single a ha]
  · simp [resolve_bucket_measurement, pyTruthy, pySplitSlash_sep a b ha,
      pySplitSlash_single b hb]
  · simp [resolve_bucket_measurement, pyTruthy,
      pySplitSlash_sep a (b ++ "/" ++ rest) ha, pySplitSlash_sep b rest hb]

/-- C3 witness: the amended statement at concrete endpoints. -/
theorem C3_endpoint_resolution_witness :
    resolve_bucket_measurement (some "nm") "a/b/c" = ("nm", some "a/b/c") ∧
    resolve_bucket_measurement none "x" = ("x", none) ∧
    resolve_bucket_measurement none "x/y" = ("x", some "y") ∧
    resolve_bucket_measurement none "x/y/z/w" = ("x", some "y") := by
  have h := C3_endpoint_resolution "nm" "a/b/c" "x" "y" (by decide) (by decide)
    (by decide)
  exact ⟨h.1, h.2.1, h.2.2.1, h.2.2.2 "z/w"⟩

set_option maxHeartbeats 1000000 in
/-- C6: the query synthesized by `get` is exactly the bucket/range selection
followed, in this fixed order, by the measurement-equality filter (present iff
a measurement is resolved), one AND-conjoined filter clause (present iff the
filter mapping is non-empty), one OR-disjoined projection field filter
(present iff the projection is non-empty), and the limit clause (present iff
`limit > 0`). -/
theorem C6_query_clause_order (bucket : String) (measurement : Option String)
    (filter : List (String × PyVal)) (projection : List String) (limit : Int) :
    buildQuery bucket measurement filter projection limit =
      "from(bucket: \"" ++ bucket ++ "\") |> range(start: 0)" ++
      (if pyTruthy measurement then
        " |> filter(fn: (r) => r._measurement == \"" ++ measurement.getD "" ++
          "\")"
      else "") ++
      (if filter ≠ [] then
        " |> filter(fn: (r) => " ++
          String.intercalate " and "
            (filter.map fun kv =>
              "r[\"" ++ kv.1 ++ "\"] == \"" ++ kv.2.pyStr ++ "\"") ++ ")"
      else "") ++
      (if projection ≠ [] then
        " |> filter(fn: (r) => " ++
          String.intercalate " or "
            (projection.map fun field => "r._field == \"" ++ field ++ "\"") ++
          ")"
      else "") ++
      (if limit > 0 then " |> limit(n: " ++ toString limit ++ ")" else "") := by
  simp only [buildQuery]
  split_ifs <;>
    first
      | (apply String.ext
         simp [String.data_append, show ("" : String).data = [] from rfl]
         done)
      | simp_all

/-- C9: every cell read back by `get` goes through `try_convert_to_dict`: a
string that looks like a mapping (brace-delimited) is replaced by the parse
result when `ast.literal_eval` succeeds, kept unchanged when the parse fails,
and every value that is not a brace-delimited string passes through
unchanged. -/
theorem C9_opportunistic_parse (literal_eval : String → Option PyVal) :
    (∀ s v, (pyStartsWith s "\x7b" && pyEndsWith s "\x7d") = true →
      literal_eval s = some v →
      try_convert_to_dict literal_eval (.str s) = v) ∧
    (∀ s, literal_eval s = none →
      try_convert_to_dict literal_eval (.str s) = .str s) ∧
    (∀ s, (pyStartsWith s "\x7b" && pyEndsWith s "\x7d") = false →
      try_convert_to_dict literal_eval (.str s) = .str s) ∧
    (∀ n, try_convert_to_dict literal_eval (.int n) = .int n) ∧
    (∀ r, try_convert_to_dict literal_eval (.float r) = .float r) ∧
    (∀ r, try_convert_to_dict literal_eval (.other r) = .other r) := by
  refine ⟨fun s v hb hp => ?_, fun s hp => ?_, fun s hb => ?_,
    fun n => rfl, fun r => rfl, fun r => rfl⟩
  · simp [try_convert_to_dict, hb, hp]
  · by_cases hb : (pyStartsWith s "\x7b" && pyEndsWith s "\x7d") = true <;>
      simp [try_convert_to_dict, hb, hp]
  · simp [try_convert_to_dict, hb]

/-- C9 witness: the three guarded cases of the parse at concrete inputs. -/
theorem C9_opportunistic_parse_witness :
    try_convert_to_dict (fun _ => some (PyVal.int 7)) (.str "\x7b1\x7d") =
      PyVal.int 7 ∧
    try_convert_to_dict (fun _ => none) (.str "\x7b1\x7d") = .str "\x7b1\x7d" ∧
    try_convert_to_dict (fun _ => some (PyVal.int 7)) (.str "nope") =
      .str "nope" :=
  ⟨(C9_opportunistic_parse _).1 "\x7b1\x7d" (PyVal.int 7) (by decide) rfl,
   (C9_opportunistic_parse _).2.1 "\x7b1\x7d" rfl,
   (C9_opportunistic_parse _).2.2.1 "nope" (by decide)⟩

/-- C10: when the synthesized query returns zero narrow records, `get`
propagates the pivot step's exception — the empty frame has no `_time`,
`_field` or `_value` columns, pandas `pivot` raises a `KeyError`, and the call
sits outside any `try` — instead of returning an empty result. -/
theorem C10_empty_result_raises (name : Option String) (endpoint : String)
    (filter : List (String × PyVal)) (projection : List String) (limit : Int)
    (time_field : String) (literal_eval : String → Option PyVal)
    (tables : List (List Item)) (h : tables.flatten = []) :
    get name endpoint filter projection limit time_field literal_eval tables =
      Except.error "KeyError" := by
  unfold get
  rw [h]
  rfl

/-- C10 witness: a backend result with no tables at all. -/
theorem C10_empty_result_raises_witness :
    get none "bucket/meas" [] [] 0 "_time" (fun _ => none) [] =
      Except.error "KeyError" :=
  C10_empty_result_raises none "bucket/meas" [] [] 0 "_time" (fun _ => none)
    [] rfl

/-- C8 (counterexample): `DBMySQL.connect` returns the boolean `True` on a
successful connection, not the adapter instance, so not every adapter's
`connect` returns the adapter itself. -/
theorem C8_counterexample :
    (DBMySQL_connect true).1 = ConnectResult.flag true ∧
    ConnectResult.flag true ≠ ConnectResult.adapter :=
  ⟨rfl, by decide⟩

/-- C8 (amended): the time-series adapter's `connect` returns the adapter
instance itself whether or not the ping succeeds (failure is only logged);
the MySQL adapter's `connect` instead returns `True` on success and `False`
on a caught connection error. -/
theorem C8_connect_returns (pingOk connOk : Bool) :
    (DBInfluxDB_connect pingOk).1 = ConnectResult.adapter ∧
    (DBMySQL_connect connOk).1 = ConnectResult.flag connOk := by
  cases connOk <;> simp [DBInfluxDB_connect, DBMySQL_connect]

/-- A well-formed entry list has no `"cls"` key, so no discriminator lookup
fires on it. -/
theorem wfEntries_lookup_cls (table : List String)
    (es : List (String × PyObj)) (h : wfEntries table es = true) :
    lookupEntry es "cls" = none := by
  induction es with
  | nil => rfl
  | cons kv rest ih =>
    obtain ⟨k, v⟩ := kv
    simp only [wfEntries, Bool.and_eq_true, decide_eq_true_eq] at h
    simp only [lookupEntry, if_neg h.1.1]
    exact ih h.2

mutual

/-- Serialization leaves a typed-object-free value unchanged. -/
theorem to_document_untyped (x : PyObj) (h : untypedObj x = true) :
    to_document x = x := by
  match x with
  | .pstr s => rfl
  | .pint n => rfl
  | .pfloat r => rfl
  | .pother r => rfl
  | .pdict entries =>
    have h' : untypedEntries entries = true := h
    simp only [to_document, toDocumentEntries_untyped entries h']
  | .plist elems =>
    have h' : untypedList elems = true := h
    simp only [to_document, toDocumentList_untyped elems h']

/-- Entry-wise form of `to_document_untyped`. -/
theorem toDocumentEntries_untyped (es : List (String × PyObj))
    (h : untypedEntries es = true) : toDocumentEntries es = es := by
  match es with
  | [] => rfl
  | (k, v) :: rest =>
    have h' : (untypedObj v && untypedEntries rest) = true := h
    rw [Bool.and_eq_true] at h'
    simp only [toDocumentEntries, to_document_untyped v h'.1,
      toDocumentEntries_untyped rest h'.2]

/-- List-wise form of `to_document_untyped`. -/
theorem toDocumentList_untyped (l : List PyObj)
    (h : untypedList l = true) : toDocumentList l = l := by
  match l with
  | [] => rfl
  | v :: rest =>
    have h' : (untypedObj v && untypedList rest) = true := h
    rw [Bool.and_eq_true] at h'
    simp only [toDocumentList, to_document_untyped v h'.1,
      toDocumentList_untyped rest h'.2]

end

mutual

/-- Rebuilding a well-formed, typed-object-free value returns it unchanged
(in particular a discriminator-less dict comes back as the original). -/
theorem from_dict_untyped (table : List String) (x : PyObj)
    (hw : wf table x = true) (hu : untypedObj x = true) :
    from_dict table x = .ok x := by
  match x with
  | .pstr s => rfl
  | .pint n => rfl
  | .pfloat r => rfl
  | .pother r => rfl
  | .pdict entries =>
    have hw' : wfEntries table entries = true := hw
    have hu' : untypedEntries entries = true := hu
    simp only [from_dict, fromDictEntries_untyped table entries hw' hu',
      wfEntries_lookup_cls table entries hw']
  | .plist elems =>
    have hw' : wfList table elems = true := hw
    have hu' : untypedList elems = true := hu
    simp only [from_dict, fromDictList_untyped table elems hw' hu']

/-- Entry-wise form of `from_dict_untyped`. -/
theorem fromDictEntries_untyped (table : List String)
    (es : List (String × PyObj)) (hw : wfEntries table es = true)
    (hu : untypedEntries es = true) :
    fromDictEntries table es = .ok es := by
  match es with
  | [] => rfl
  | (k, v) :: rest =>
    have hw' : (decide (k ≠ "cls") && wf table v && wfEntries table rest)
        = true := hw
    rw [Bool.and_eq_true, Bool.and_eq_true] at hw'
    have hu' : (untypedObj v && untypedEntries rest) = true := hu
    rw [Bool.and_eq_true] at hu'
    simp only [fromDictEntries, from_dict_untyped table v hw'.1.2 hu'.1,
      fromDictEntries_untyped table rest hw'.2 hu'.2]

/-- List-wise form of `from_dict_untyped`. -/
theorem fromDictList_untyped (table : List String) (l : List PyObj)
    (hw : wfList table l = true) (hu : untypedList l = true) :
    fromDictList table l = .ok l := by
  match l with
  | [] => rfl
  | v :: rest =>
    have hw' : (wf table v && wfList table rest) = true := hw
    rw [Bool.and_eq_true] at hw'
    have hu' : (untypedObj v && untypedList rest) = true := hu
    rw [Bool.and_eq_true] at hu'
    simp only [fromDictList, from_dict_untyped table v hw'.1 hu'.1,
      fromDictList_untyped table rest hw'.2 hu'.2]

end

mutual

/-- Serialize-then-rebuild is the identity on well-formed, round-trip-safe
objects. -/
theorem from_to_obj (table : List String) (x : PyObj)
    (h : wf table x = true) (hr : rebuildable x = true) :
    from_dict table (to_document x) = .ok x := by
  match x with
  | .pstr s => rfl
  | .pint n => rfl
  | .pfloat r => rfl
  | .pother r => rfl
  | .pdict entries =>
    have h' : wfEntries table entries = true := h
    have hu : untypedEntries entries = true := hr
    simp only [to_document, toDocumentEntries_untyped entries hu, from_dict,
      fromDictEntries_untyped table entries h' hu,
      wfEntries_lookup_cls table entries h']
  | .plist elems =>
    have h' : wfList table elems = true := h
    have hr' : rebuildableList elems = true := hr
    simp only [to_document, from_dict, from_to_list table elems h' hr']
  | .ptyped c fields =>
    have h' : (table.contains c && wfEntries table fields) = true := h
    rw [Bool.and_eq_true] at h'
    have hc : table.contains c = true := h'.1
    have hf : wfEntries table fields = true := h'.2
    have hr' : rebuildableEntries fields = true := hr
    simp only [to_document, from_dict, fromDictEntries,
      from_to_entries table fields hf hr', lookupEntry, if_pos rfl,
      popEntry, hc, if_true]

/-- Entry lists: serialize-then-rebuild is the identity. -/
theorem from_to_entries (table : List String) (es : List (String × PyObj))
    (h : wfEntries table es = true) (hr : rebuildableEntries es = true) :
    fromDictEntries table (toDocumentEntries es) = .ok es := by
  match es with
  | [] => rfl
  | (k, v) :: rest =>
    have h' : (decide (k ≠ "cls") && wf table v && wfEntries table rest)
        = true := h
    rw [Bool.and_eq_true, Bool.and_eq_true] at h'
    have hr' : (rebuildable v && rebuildableEntries rest) = true := hr
    rw [Bool.and_eq_true] at hr'
    simp only [toDocumentEntries, fromDictEntries,
      from_to_obj table v h'.1.2 hr'.1, from_to_entries table rest h'.2 hr'.2]

/-- Lists: serialize-then-rebuild is the identity. -/
theorem from_to_list (table : List String) (l : List PyObj)
    (h : wfList table l = true) (hr : rebuildableList l = true) :
    fromDictList table (toDocumentList l) = .ok l := by
  match l with
  | [] => rfl
  | v :: rest =>
    have h' : (wf table v && wfList table rest) = true := h
    rw [Bool.and_eq_true] at h'
    have hr' : (rebuildable v && rebuildableList rest) = true := hr
    rw [Bool.and_eq_true] at hr'
    simp only [toDocumentList, fromDictList, from_to_obj table v h'.1 hr'.1,
      from_to_list table rest h'.2 hr'.2]

end

/-- C4 (counterexample): a registered typed object carrying a typed object
below a plain-dict field does not round-trip.  `from_dict` hands the
discriminator-less `"d"` dict back unchanged (`return obj`, core.py line 76),
so the inner `{"cls": "B"}` mapping stays an unconverted dict and the rebuilt
object differs from the original on the field `"d"`. -/
theorem C4_counterexample :
    from_dict ["A", "B"]
      (to_document (.ptyped "A" [("d", .pdict [("k", .ptyped "B" [])])])) =
      .ok (.ptyped "A" [("d", .pdict [("k", .pdict [("cls", .pstr "B")])])]) ∧
    PyObj.ptyped "A" [("d", .pdict [("k", .pdict [("cls", .pstr "B")])])] ≠
      PyObj.ptyped "A" [("d", .pdict [("k", .ptyped "B" [])])] :=
  ⟨rfl, by simp⟩

/-- C4 (amended): for every typed object whose concrete class names are
registered in the subtype table (throughout, no field usurping the reserved
`"cls"` key) and in which no typed object sits below a plain-dict field
value, serializing with `to_document` — the discriminator merged with the
field values — and rebuilding with `from_dict` yields the object back, equal
on every field.  Typed objects below a plain dict are excluded because
`from_dict` returns a discriminator-less dict unconverted (core.py
line 76). -/
theorem C4_document_roundtrip (table : List String) (c : String)
    (fields : List (String × PyObj))
    (h : wf table (.ptyped c fields) = true)
    (hr : rebuildable (.ptyped c fields) = true) :
    from_dict table (to_document (.ptyped c fields)) =
      .ok (.ptyped c fields) :=
  from_to_obj table (.ptyped c fields) h hr

/-- C4 witness: a registered object with a scalar field, a nested typed
field, and a plain-dict field free of typed objects round-trips. -/
theorem C4_document_roundtrip_witness :
    wf ["A", "B"]
      (.ptyped "A" [("v", .pint 3), ("sub", .ptyped "B" [("x", .pstr "s")]),
        ("cfg", .pdict [("kk", .pstr "vv")])]) = true ∧
    rebuildable
      (.ptyped "A" [("v", .pint 3), ("sub", .ptyped "B" [("x", .pstr "s")]),
        ("cfg", .pdict [("kk", .pstr "vv")])]) = true ∧
    from_dict ["A", "B"]
      (to_document
        (.ptyped "A" [("v", .pint 3), ("sub", .ptyped "B" [("x", .pstr "s")]),
          ("cfg", .pdict [("kk", .pstr "vv")])])) =
      .ok (.ptyped "A"
        [("v", .pint 3), ("sub", .ptyped "B" [("x", .pstr "s")]),
          ("cfg", .pdict [("kk", .pstr "vv")])]) :=
  ⟨rfl, rfl, C4_document_roundtrip ["A", "B"] "A"
    [("v", .pint 3), ("sub", .ptyped "B" [("x", .pstr "s")]),
      ("cfg", .pdict [("kk", .pstr "vv")])] rfl rfl⟩

/-- The entry-wise rebuild keeps keys and maps each value through
`from_dict`; in particular, it carries the first `"cls"` binding along. -/
theorem fromDictEntries_lookup_cls (table : List String)
    (es es' : List (String × PyObj)) (v : PyObj)
    (hok : fromDictEntries table es = .ok es')
    (hv : lookupEntry es "cls" = some v) :
    ∃ v', lookupEntry es' "cls" = some v' ∧ from_dict table v = .ok v' := by
  induction es generalizing es' with
  | nil => simp [lookupEntry] at hv
  | cons kv rest ih =>
    obtain ⟨k, w⟩ := kv
    simp only [fromDictEntries] at hok
    cases hw : from_dict table w with
    | error e => rw [hw] at hok; cases hok
    | ok w' =>
      rw [hw] at hok
      cases hrest : fromDictEntries table rest with
      | error e => rw [hrest] at hok; cases hok
      | ok rest' =>
        rw [hrest] at hok
        cases hok
        by_cases hk : k = "cls"
        · simp only [lookupEntry, if_pos hk] at hv ⊢
          cases hv
          exact ⟨w', rfl, hw⟩
        · simp only [lookupEntry, if_neg hk] at hv ⊢
          exact ih rest' hrest hv

/-- C5: for every document mapping whose `"cls"` discriminator names no
registered subclass of the root type, `from_dict` fails with the resolution
error (Python raises the `ValueError` of core.py lines 66-68 to the caller)
and constructs no object. -/
theorem C5_unknown_discriminator (table : List String)
    (entries : List (String × PyObj)) (n : String)
    (h1 : lookupEntry entries "cls" = some (.pstr n))
    (h2 : table.contains n = false) :
    ∃ e, from_dict table (.pdict entries) = .error e := by
  simp only [from_dict]
  cases hok : fromDictEntries table entries with
  | error e => exact ⟨e, rfl⟩
  | ok entries' =>
    obtain ⟨v', hlook, hfd⟩ :=
      fromDictEntries_lookup_cls table entries entries' (.pstr n) hok h1
    have hv' : v' = .pstr n := by
      simp only [from_dict] at hfd
      cases hfd
      rfl
    refine ⟨n ++ " is not a subclass of the root class", ?_⟩
    simp [hlook, hv', h2]
    simpa using h2

/-- C5 witness: an unknown discriminator on an empty table fails. -/
theorem C5_unknown_discriminator_witness :
    ∃ e, from_dict [] (.pdict [("cls", .pstr "B"), ("v", .pint 1)]) =
      .error e :=
  C5_unknown_discriminator [] [("cls", .pstr "B"), ("v", .pint 1)] "B" rfl rfl

end Databayes
